import Mathlib

/-!
Verification of the Articles MCP adapter (remote-mcp-server-authless).

The repository holds several near-duplicate snapshots of one Cloudflare-Worker
MCP agent exposing a `search` and a `fetch` tool over a Strapi content API.
This development shallowly embeds the adapter's decision logic, following the
revision with the 512-character snippet default (src/unnamed/part_000, whose
transforms agree with the logging-enhanced snapshot in src/unnamed/part_001):

* JavaScript strings are `List Char`; a missing (`undefined`) string field and
  the empty string are identified, since the source only ever tests string
  fields for truthiness, where both are falsy.
* Numeric fields (`id`, `articleId`) are `Option Int`; JavaScript `a || b`
  on numbers treats `0` as falsy, which `intFieldOr` reproduces.
* `Math.random().toString()` and the configured base URL are explicit
  parameters (`rnd`, `base`) of the functions that read them.
* The single upstream HTTP exchange of a tool call is modelled by a `Wire`
  value describing the observable outcome of `fetch` plus `response.json()`;
  the decodability of the inner text payload, decided in the source by
  `JSON.parse`, is carried on the wire as an `InnerText` constructor.
* A JavaScript `throw` is `Except.error`; `try`/`catch` is a `match` on it.
-/

/-- JavaScript strings, as lists of characters. -/
abbrev Str := List Char

/-- JavaScript truthiness of a string: every string except the empty one. -/
def jsTruthy (s : Str) : Bool := !s.isEmpty

/-- JavaScript `a || b` on strings: `a` when truthy (non-empty), else `b`. -/
def jsOr (a b : Str) : Str := if a.isEmpty then b else a

/-- JavaScript `a || b` on optional numbers: `0` and `undefined` are falsy. -/
def intFieldOr (a b : Option Int) : Option Int :=
  match a with
  | some n => if n = 0 then b else some n
  | none => b

/-- String interpolation of an optional number: JavaScript renders a missing
value as the literal text `undefined`. -/
def idSlug (o : Option Int) : Str :=
  match o with
  | some n => (toString n).data
  | none => "undefined".toList

/-- `String.prototype.toLowerCase`, restricted to the ASCII range used by the
classifier's keyword vocabulary. -/
def lowerStr (s : Str) : Str := s.map Char.toLower

/-- `String.prototype.trim`: drop whitespace from both ends. -/
def trimStr (s : Str) : Str :=
  ((s.dropWhile Char.isWhitespace).reverse.dropWhile Char.isWhitespace).reverse

/-- `String.prototype.includes`: `sub` occurs contiguously in `hay`. -/
def containsSub (hay sub : Str) : Bool :=
  (List.range (hay.length + 1)).any fun i => sub.isPrefixOf (hay.drop i)

/-- `snippet.lastIndexOf " "`: index of the last space, `none` for the
source's `-1`. -/
def lastSpaceIdx (l : Str) : Option Nat :=
  match l.reverse.findIdx? (fun c => c == ' ') with
  | some j => some (l.length - 1 - j)
  | none => none

/-- The ellipsis marker appended by `createSnippet`. -/
def dotsEllipsis : Str := "...".toList

/-- The truncating arm of `createSnippet` (source lines 151-156 of
src/unnamed/part_000): take the window, cut at the last space when that space
lies past 80 percent of the bound, else cut hard; append the ellipsis.
The source's `lastSpace > maxLength * 0.8` compares an integer index against
an IEEE double; for every integer index `ls >= 0` and integer bound `L` it
holds exactly when `4 * L < 5 * ls`, which is the form used here, and the
`-1` returned by `lastIndexOf` on a space-free window (always below the
threshold) is the `none` arm. -/
def snippetCut (snip : Str) (maxLength : Nat) : Str :=
  match lastSpaceIdx snip with
  | some ls =>
      if 4 * maxLength < 5 * ls then (snip.take ls) ++ dotsEllipsis
      else snip ++ dotsEllipsis
  | none => snip ++ dotsEllipsis

/-- `createSnippet(text, maxLength = 512)` from src/unnamed/part_000 lines
147-157: return short text unchanged, else truncate the 512-character window.
The `!text` guard of the source is subsumed by the length test, since the
empty string has length `0 <= maxLength`. -/
def createSnippet (text : Str) (maxLength : Nat) : Str :=
  if text.length <= maxLength then text
  else snippetCut (text.take maxLength) maxLength

/-- An upstream article record (`RawArticle`): every field optional, string
fields defaulting to the falsy empty string. -/
structure RawArticle where
  id : Option Int := none
  articleId : Option Int := none
  title : Str := []
  summary : Str := []
  excerpt : Str := []
  description : Str := []
  fullContent : Str := []
  content : Str := []
  url : Str := []
  author : Str := []
  publishedAt : Str := []
  category : Str := []
deriving DecidableEq

/-- The literal fallback body text. -/
def noContentText : Str := "No content available".toList

/-- The default title. -/
def untitledText : Str := "Untitled Article".toList

/-- Body-text selection of `transformSearchResults` (src/unnamed/part_000
lines 104-111): when `summary` or `excerpt` is truthy take
`summary || excerpt || description || "No content available"`, otherwise take
`fullContent || description || summary || "No content available"`. -/
def searchTextContent (a : RawArticle) : Str :=
  if jsTruthy a.summary || jsTruthy a.excerpt then
    jsOr a.summary (jsOr a.excerpt (jsOr a.description noContentText))
  else
    jsOr a.fullContent (jsOr a.description (jsOr a.summary noContentText))

/-- Body-text selection of `transformFetchResult` (src/unnamed/part_000 line
133, identical in src/unnamed/part_001 line 112):
`content || fullContent || description || summary || "No content available"`. -/
def fetchTextContent (a : RawArticle) : Str :=
  jsOr a.content (jsOr a.fullContent (jsOr a.description (jsOr a.summary noContentText)))

/-- `buildArticleUrl` (src/unnamed/part_000 lines 160-171): an explicit url is
kept when it starts with `http`, made absolute against the base otherwise;
without one the url is the base, `/blog/`, and `articleId || id`. -/
def buildArticleUrl (base : Str) (a : RawArticle) : Str :=
  if jsTruthy a.url then
    if ("http".toList).isPrefixOf a.url then a.url else base ++ a.url
  else
    base ++ "/blog/".toList ++ idSlug (intFieldOr a.articleId a.id)

/-- A canonical search hit (`SearchResultDoc`). -/
structure SearchDoc where
  id : Str
  title : Str
  text : Str
  url : Str
deriving DecidableEq

/-- The per-article body of `transformSearchResults` (src/unnamed/part_000
lines 113-119): `rnd` stands for the `Math.random().toString()` fallback id. -/
def searchDocOf (base rnd : Str) (a : RawArticle) : SearchDoc :=
  { id := match a.id with | some n => (toString n).data | none => rnd
  , title := jsOr a.title untitledText
  , text := createSnippet (searchTextContent a) 512
  , url := buildArticleUrl base a }

/-- `transformSearchResults` over a decoded article array; the source's
non-array guard is the typing of the argument as a list. -/
def transformSearchResults (base rnd : Str) (articles : List RawArticle) : List SearchDoc :=
  articles.map (searchDocOf base rnd)

/-- A canonical full document (`FetchResultDoc`), its metadata object
flattened into fields. -/
structure FetchDoc where
  id : Str
  title : Str
  text : Str
  url : Str
  author : Str
  publishedAt : Str
  category : Str
  source : Str
deriving DecidableEq

/-- `transformFetchResult` (src/unnamed/part_000 lines 126-144). -/
def fetchDocOf (base : Str) (a : RawArticle) : FetchDoc :=
  { id := match a.id with | some n => (toString n).data | none => "unknown".toList
  , title := jsOr a.title untitledText
  , text := fetchTextContent a
  , url := buildArticleUrl base a
  , author := a.author
  , publishedAt := a.publishedAt
  , category := a.category
  , source := "Keepnet Labs Blog".toList }

/-- `isGetAllQuery` of the enhanced search tool (src/unnamed/part_000 lines
262-267): empty or whitespace-only query, the wildcard `*`, or a lower-cased
occurrence of `all`, `everything`, or `list`. The source's separate `!query`
test is the empty-string case of the trim test. -/
def isGetAllQuery (q : Str) : Bool :=
  (trimStr q).isEmpty || trimStr q == ['*'] ||
    containsSub (lowerStr q) ("all".toList) ||
    containsSub (lowerStr q) ("everything".toList) ||
    containsSub (lowerStr q) ("list".toList)

/-- `isLatestQuery` (src/unnamed/part_000 lines 270-275): the bilingual
recency vocabulary. -/
def isLatestQuery (q : Str) : Bool :=
  containsSub (lowerStr q) ("latest".toList) ||
    containsSub (lowerStr q) ("recent".toList) ||
    containsSub (lowerStr q) ("newest".toList) ||
    containsSub (lowerStr q) ("last".toList) ||
    containsSub (lowerStr q) ("son".toList) ||
    containsSub (lowerStr q) ("yeni".toList)

/-- A decimal-digit character, the character class of the source's regular
expression digit test. -/
def isDigitCh (c : Char) : Bool := decide (48 <= c.toNat ∧ c.toNat <= 57)

/-- ASCII whitespace recognised by `parseInt`'s leading-whitespace skip
(tab, line feed, vertical tab, form feed, carriage return, space). -/
def isWsCh (c : Char) : Bool :=
  decide (c.toNat = 9 ∨ c.toNat = 10 ∨ c.toNat = 11 ∨ c.toNat = 12 ∨
    c.toNat = 13 ∨ c.toNat = 32)

/-- A hexadecimal digit. -/
def isHexDigitCh (c : Char) : Bool :=
  isDigitCh c || decide (97 <= c.toNat ∧ c.toNat <= 102) ||
    decide (65 <= c.toNat ∧ c.toNat <= 70)

/-- The value of one digit character (decimal or hexadecimal). -/
def digitValCh (c : Char) : Nat :=
  if 97 <= c.toNat then c.toNat - 87
  else if 65 <= c.toNat then c.toNat - 55
  else c.toNat - 48

/-- The value of a digit run read in the given radix. -/
def digitsVal (radix : Nat) (ds : Str) : Nat :=
  ds.foldl (fun n c => radix * n + digitValCh c) 0

/-- `query.match(/(\d+)/)` followed by `parseInt` (src/unnamed/part_000 lines
281-282): the value of the first maximal decimal-digit run, if any. -/
def firstNumberMatch (q : Str) : Option Nat :=
  let rest := q.dropWhile (fun c => !(isDigitCh c))
  if rest.isEmpty then none
  else some (digitsVal 10 (rest.takeWhile isDigitCh))

/-- The retrieval intent resolved by the enhanced search tool, with the
upstream page limit it carries. -/
inductive Intent where
  | getAll (limit : Nat)
  | getLatest (limit : Nat)
  | searchKw (q : Str) (limit : Nat)
deriving DecidableEq

/-- The classifier of the enhanced search tool (src/unnamed/part_000 lines
277-295): GetAll first (limit 100), then GetLatest (extracted count or 10),
else keyword search (limit 50). -/
def classifyQuery (q : Str) : Intent :=
  if isGetAllQuery q then Intent.getAll 100
  else if isLatestQuery q then
    Intent.getLatest (match firstNumberMatch q with | some n => n | none => 10)
  else Intent.searchKw q 50

/-- The decoded JSON payload carried inside a well-formed upstream envelope:
the object shapes the handlers look for (`articles` for search operations,
`article` for the by-id operation). -/
structure ParsedPayload where
  articles : Option (List RawArticle) := none
  article : Option RawArticle := none
deriving DecidableEq

/-- The inner text of the upstream envelope, together with the verdict of
`JSON.parse` on it: either it decodes to a payload or it does not. -/
inductive InnerText where
  | decodable (p : ParsedPayload)
  | undecodable (raw : Str)
deriving DecidableEq

/-- The decoded body of a successful upstream HTTP response: an optional
truthy `error` field, and the `content` wrapper when the body matches the
envelope shape (`none` covers a missing, non-array, or text-less wrapper). -/
structure Body where
  error : Option Str := none
  content : Option InnerText := none
deriving DecidableEq

/-- The observable outcome of the single upstream exchange of `callStrapiAPI`:
the transport threw, the response status was not ok, or a body was decoded. -/
inductive Wire where
  | netDown
  | httpErr (status : Nat) (msg : Str)
  | ok (body : Body)
deriving DecidableEq

/-- The failures `callStrapiAPI` raises. -/
inductive ApiError where
  | transport
  | http (status : Nat) (msg : Str)
  | api (msg : Str)
deriving DecidableEq

/-- What `callStrapiAPI` returns on success: the parsed payload, the
empty-articles sentinel it substitutes when the inner text is not decodable
JSON, or the raw body passed through when the envelope shape is unexpected. -/
inductive ApiValue where
  | payload (p : ParsedPayload)
  | parseFailSentinel
  | rawFallback (b : Body)
deriving DecidableEq

/-- `callStrapiAPI` (src/unnamed/part_000 lines 179-220): throw on transport
failure, non-ok status, or an upstream `error` field; on a well-formed
envelope decode the inner text, degrading an undecodable text to the
`articles: []` sentinel instead of throwing; pass an unexpected shape
through unmodified. -/
def callStrapiAPI (w : Wire) : Except ApiError ApiValue :=
  match w with
  | Wire.netDown => Except.error ApiError.transport
  | Wire.httpErr s m => Except.error (ApiError.http s m)
  | Wire.ok b =>
    match b.error with
    | some m => Except.error (ApiError.api m)
    | none =>
      match b.content with
      | some (InnerText.decodable p) => Except.ok (ApiValue.payload p)
      | some (InnerText.undecodable _) => Except.ok ApiValue.parseFailSentinel
      | none => Except.ok (ApiValue.rawFallback b)

/-- `raw?.articles || []` as evaluated by the search handler on each possible
`callStrapiAPI` result. -/
def articlesOf (v : ApiValue) : List RawArticle :=
  match v with
  | ApiValue.payload p => p.articles.getD []
  | ApiValue.parseFailSentinel => []
  | ApiValue.rawFallback _ => []

/-- `raw?.article` as evaluated by the fetch handler. -/
def articleOf (v : ApiValue) : Option RawArticle :=
  match v with
  | ApiValue.payload p => p.article
  | ApiValue.parseFailSentinel => none
  | ApiValue.rawFallback _ => none

/-- The successful response of the search tool: the serialized document
array (empty on no results or on any absorbed failure). -/
inductive SearchResponse where
  | results (docs : List SearchDoc)
deriving DecidableEq

/-- The upstream operation name the search handler invokes
(src/unnamed/part_000 lines 27-31): the wildcard query browses, any other
query searches. -/
def searchUpstreamOp (q : Str) : Str :=
  if trimStr q == ['*'] then "get_all_articles".toList else "search_articles".toList

/-- The search tool handler (src/unnamed/part_000 lines 21-62): one upstream
exchange, whose outcome is `w`; an empty article set yields the empty array
response, a non-empty one the transformed documents, and the `catch` turns
every raised failure into the empty array response. The `Except.error` arm
of the result type is the uncaught-throw channel, which the handler never
uses. -/
def searchTool (base rnd _q : Str) (w : Wire) : Except Str SearchResponse :=
  match callStrapiAPI w with
  | Except.error _ => Except.ok (SearchResponse.results [])
  | Except.ok v =>
    let articles := articlesOf v
    if articles.isEmpty then Except.ok (SearchResponse.results [])
    else Except.ok (SearchResponse.results (transformSearchResults base rnd articles))

/-- The failures the fetch tool surfaces to its caller. -/
inductive ToolError where
  | backend (e : ApiError)
  | notFound
deriving DecidableEq

/-- The fetch tool handler (src/unnamed/part_000 lines 71-92): a raised
backend failure is rethrown by the `catch`, a missing record raises the
not-found error, and only a present record produces a document. -/
def fetchTool (base : Str) (w : Wire) : Except ToolError FetchDoc :=
  match callStrapiAPI w with
  | Except.error e => Except.error (ToolError.backend e)
  | Except.ok v =>
    match articleOf v with
    | none => Except.error ToolError.notFound
    | some a => Except.ok (fetchDocOf base a)

/-- The sign step of ECMAScript `parseInt`: consume one optional `+` or `-`
after the whitespace skip. -/
def parseSign (t : Str) : Bool × Str :=
  if t.headD ' ' = '-' then (true, t.tail)
  else if t.headD ' ' = '+' then (false, t.tail)
  else (false, t)

/-- The radix step of ECMAScript `parseInt` with no radix argument: a leading
`0x` or `0X` selects hexadecimal and is consumed, anything else is decimal. -/
def parseRadix (t : Str) : Nat × Str :=
  if t.headD ' ' = '0' && (t.tail.headD ' ' = 'x' || t.tail.headD ' ' = 'X') then
    (16, t.tail.tail)
  else (10, t)

/-- ECMAScript `parseInt(string)` as called by the fetch handler on the tool's
id argument: skip leading whitespace, read an optional sign, detect the
radix, take the longest run of radix digits, and fail to NaN (here `none`)
when that run is empty. Values are exact integers here; the source's
float rounding on runs beyond 2 to the 53rd is not reached by any claim. -/
def parseIntJS (s : Str) : Option Int :=
  let t := s.dropWhile isWsCh
  let st := parseSign t
  let rt := parseRadix st.2
  let ds := rt.2.takeWhile (if rt.1 = 16 then isHexDigitCh else isDigitCh)
  if ds.isEmpty then none
  else some ((if st.1 then (-1 : Int) else 1) * Int.ofNat (digitsVal rt.1 ds))

/-- The integer argument the fetch handler sends to the upstream
`get_article_by_id` operation (src/unnamed/part_000 line 73): `parseInt(id)`,
with `none` standing for NaN. -/
def fetchUpstreamId (idArg : Str) : Option Int := parseIntJS idArg

/-- The first non-empty string of an ordered candidate list, with a default;
this is the spec's notion of an ordered fallback cascade, stated in the
spec's words for comparison with the source's selection functions. -/
def firstNonEmpty : List Str → Str → Str
  | [], d => d
  | x :: xs, d => if x.isEmpty then firstNonEmpty xs d else x

/-- The search-variant cascade in the order the claim states it:
summary, excerpt, description, fullContent, content, then the literal. -/
def claimedSearchText (a : RawArticle) : Str :=
  firstNonEmpty [a.summary, a.excerpt, a.description, a.fullContent, a.content] noContentText

/-- An article whose only body fields are a description and a longer-priority
fullContent; the search transformation prefers the fullContent. -/
def exArticleDescFull : RawArticle :=
  { description := "D".toList, fullContent := "F".toList }

/-- An article carrying only a content body; the search transformation does
not consult it. -/
def exArticleContentOnly : RawArticle := { content := "C".toList }

/-- C1: the claimed search-variant cascade (summary, excerpt, description,
fullContent, content) is refuted: with summary and excerpt empty the code
prefers fullContent over a non-empty description, and a body present only in
content is not consulted at all. -/
theorem c1_search_order_counterexample :
    (searchTextContent exArticleDescFull = "F".toList ∧
      claimedSearchText exArticleDescFull = "D".toList) ∧
    (searchTextContent exArticleContentOnly = noContentText ∧
      claimedSearchText exArticleContentOnly = "C".toList) := by
  decide

/-- C1 (amended): the search-variant body text is the first non-empty field
in the order summary, excerpt, fullContent, description, and the literal
fallback when all four are empty; the content field is not consulted. In
particular, when summary, excerpt and fullContent are empty but description
is non-empty, the description is chosen. -/
theorem c1_search_text_fallback (a : RawArticle) :
    searchTextContent a =
      firstNonEmpty [a.summary, a.excerpt, a.fullContent, a.description] noContentText := by
  cases hs : a.summary.isEmpty <;> cases he : a.excerpt.isEmpty <;>
    cases hf : a.fullContent.isEmpty <;> cases hd : a.description.isEmpty <;>
    simp [searchTextContent, firstNonEmpty, jsTruthy, jsOr, hs, he, hf, hd]

/-- C2: the fetch-variant body text is the first non-empty field in the order
content, fullContent, description, summary, and the literal fallback when all
four are empty; the chosen text is the whole field, never cut to the snippet
bound, since the fetch transformation's text equals the selection itself. -/
theorem c2_fetch_text_fallback (base : Str) (a : RawArticle) :
    (fetchDocOf base a).text =
      firstNonEmpty [a.content, a.fullContent, a.description, a.summary] noContentText := by
  cases hc : a.content.isEmpty <;> cases hf : a.fullContent.isEmpty <;>
    cases hd : a.description.isEmpty <;> cases hs : a.summary.isEmpty <;>
    simp [fetchDocOf, fetchTextContent, firstNonEmpty, jsOr, hc, hf, hd, hs]

/-- Both arms of the truncating step yield at most the window plus the
three-character ellipsis. -/
theorem snippetCut_length_le (snip : Str) (L : Nat) :
    (snippetCut snip L).length <= snip.length + 3 := by
  unfold snippetCut
  cases h : lastSpaceIdx snip with
  | none => simp [dotsEllipsis]
  | some ls =>
    by_cases hc : 4 * L < 5 * ls
    · simp [hc, dotsEllipsis, List.length_take]
    · simp [hc, dotsEllipsis]

/-- The snippet never exceeds the bound by more than the ellipsis. -/
theorem createSnippet_length_le (text : Str) (L : Nat) :
    (createSnippet text L).length <= L + 3 := by
  unfold createSnippet
  by_cases h : text.length <= L
  · simp [h]; omega
  · have := snippetCut_length_le (text.take L) L
    simp [h] at this ⊢
    have ht : (text.take L).length <= L := by simp
    omega

/-- An article whose summary is 513 characters long, one past the snippet
bound. -/
def exArticleLong : RawArticle := { summary := List.replicate 513 'a' }

set_option maxRecDepth 20000 in
/-- C3: the claim that search-result text never exceeds the 512-character
bound is refuted: a 513-character space-free body produces a text of length
515, the hard cut plus the three-character ellipsis. -/
theorem c3_snippet_bound_counterexample :
    512 < (searchDocOf [] [] exArticleLong).text.length := by
  decide

/-- C3 (amended): the search-result text length is at most the snippet bound
plus the three-character ellipsis, 515 for the default 512; and whenever the
selected body is longer than 515 the output text is not the full body. -/
theorem c3_snippet_bound (base rnd : Str) (a : RawArticle) :
    (searchDocOf base rnd a).text.length <= 515 ∧
      (515 < (searchTextContent a).length →
        (searchDocOf base rnd a).text ≠ searchTextContent a) := by
  have hb : (searchDocOf base rnd a).text.length <= 515 := by
    have := createSnippet_length_le (searchTextContent a) 512
    simpa [searchDocOf] using this
  refine ⟨hb, fun hlong heq => ?_⟩
  rw [heq] at hb
  omega

set_option maxRecDepth 20000 in
/-- C3 witness: at the 516-character body below, the bound holds and the
output text differs from the body. -/
theorem c3_snippet_bound_witness :
    (searchDocOf [] [] { summary := List.replicate 516 'a' }).text.length <= 515 ∧
      (searchDocOf [] [] { summary := List.replicate 516 'a' }).text ≠
        searchTextContent { summary := List.replicate 516 'a' } := by
  refine ⟨(c3_snippet_bound [] [] _).1, (c3_snippet_bound [] [] _).2 ?_⟩
  decide

/-- The last-space index of a window lies inside the window. -/
theorem lastSpaceIdx_lt {l : Str} {i : Nat} (h : lastSpaceIdx l = some i) :
    i < l.length := by
  unfold lastSpaceIdx at h
  cases hf : l.reverse.findIdx? (fun c => c == ' ') with
  | none => rw [hf] at h; simp at h
  | some j =>
    rw [hf] at h
    simp only [Option.some.injEq] at h
    cases l with
    | nil => simp at hf
    | cons c t => simp only [List.length_cons] at h ⊢; omega

/-- When the truncating arm cuts hard, the truncated snippet is a fixed point
of a further application: taking the bound-length window of it recovers the
original window, whose truncation is unchanged. -/
theorem createSnippet_restabilize (s : Str) (L : Nat) (h1 : L < s.length)
    (hcut : snippetCut (s.take L) L = s.take L ++ dotsEllipsis) :
    createSnippet (createSnippet s L) L = createSnippet s L := by
  have hsnip : (s.take L).length = L := by simp; omega
  have hr : createSnippet s L = s.take L ++ dotsEllipsis := by
    unfold createSnippet
    rw [if_neg (by omega), hcut]
  rw [hr]
  unfold createSnippet
  rw [if_neg (by simp [hsnip, dotsEllipsis])]
  have htake : (s.take L ++ dotsEllipsis).take L = s.take L := List.take_left' hsnip
  rw [htake, hcut]

/-- C4: snippet idempotence is refuted at the eleven-character string below
with bound 10: the word-boundary cut lands one character before the bound, so
the first result is twelve characters long and is truncated again, this time
at the hard boundary. -/
theorem c4_idempotence_counterexample :
    createSnippet (createSnippet ("aaaaaaaaa b".toList) 10) 10 ≠
      createSnippet ("aaaaaaaaa b".toList) 10 := by
  decide

/-- C4 (amended): the snippet builder is idempotent whenever its result fits
the bound or is exactly the bound plus the three-character ellipsis - that
is, always except when the word-boundary cut lands within two characters of
the bound, where the lengthened result is truncated again. -/
theorem c4_snippet_idempotent (s : Str) (L : Nat)
    (h : (createSnippet s L).length <= L ∨ (createSnippet s L).length = L + 3) :
    createSnippet (createSnippet s L) L = createSnippet s L := by
  by_cases h1 : s.length <= L
  · simp [createSnippet, h1]
  · have hsnip : (s.take L).length = L := by simp; omega
    cases hls : lastSpaceIdx (s.take L) with
    | none =>
      exact createSnippet_restabilize s L (by omega) (by simp [snippetCut, hls])
    | some ls =>
      have hlt : ls < L := hsnip ▸ lastSpaceIdx_lt hls
      by_cases hc : 4 * L < 5 * ls
      · have hr : createSnippet s L = (s.take L).take ls ++ dotsEllipsis := by
          unfold createSnippet snippetCut
          rw [if_neg (by omega), hls]
          simp [hc]
        have hrlen : (createSnippet s L).length = ls + 3 := by
          rw [hr]
          simp [List.length_take, hsnip, dotsEllipsis]
          omega
        rcases h with h | h
        · rw [hr] at h ⊢
          unfold createSnippet
          rw [if_pos h]
        · omega
      · exact createSnippet_restabilize s L (by omega) (by simp [snippetCut, hls, hc])

/-- C4 witness: a short string is below the bound and idempotent. -/
theorem c4_snippet_idempotent_witness :
    createSnippet (createSnippet ("hi".toList) 10) 10 = createSnippet ("hi".toList) 10 :=
  c4_snippet_idempotent ("hi".toList) 10 (Or.inl (by decide))

/-- C5: URL canonicalization: an explicit url starting with `http` is kept
unchanged, any other explicit url gets the base prepended, and a record
without a url gets the synthesized blog path from `articleId || id`; the
search and the fetch transformation both route through this one rule. -/
theorem c5_url_canonicalization (base rnd : Str) (a : RawArticle) :
    (a.url ≠ [] → ("http".toList).isPrefixOf a.url = true →
      buildArticleUrl base a = a.url) ∧
    (a.url ≠ [] → ("http".toList).isPrefixOf a.url = false →
      buildArticleUrl base a = base ++ a.url) ∧
    (a.url = [] →
      buildArticleUrl base a =
        base ++ "/blog/".toList ++ idSlug (intFieldOr a.articleId a.id)) ∧
    (searchDocOf base rnd a).url = buildArticleUrl base a ∧
    (fetchDocOf base a).url = buildArticleUrl base a := by
  have htr : a.url ≠ [] → jsTruthy a.url = true := by
    cases a.url with
    | nil => intro hne; exact absurd rfl hne
    | cons c t => intro _; rfl
  refine ⟨fun hne hp => ?_, fun hne hp => ?_, fun he => ?_, rfl, rfl⟩
  · simp at hp; simp [buildArticleUrl, htr hne, hp]
  · simp at hp; simp [buildArticleUrl, htr hne, hp]
  · simp [buildArticleUrl, jsTruthy, he]

/-- The relative-url record of the spec's example. -/
def exArticleRelUrl : RawArticle := { url := "/blog/5".toList }

/-- The absolute-url record of the spec's example. -/
def exArticleAbsUrl : RawArticle := { url := "https://y.test/a".toList }

/-- C5 witness: the spec's two concrete examples, through the theorem. -/
theorem c5_url_canonicalization_witness :
    buildArticleUrl ("https://x.test".toList) exArticleRelUrl =
      "https://x.test/blog/5".toList ∧
    buildArticleUrl ("https://x.test".toList) exArticleAbsUrl =
      "https://y.test/a".toList := by
  constructor
  · exact ((c5_url_canonicalization ("https://x.test".toList) [] exArticleRelUrl).2.1
      (by decide) (by decide)).trans (by decide)
  · exact ((c5_url_canonicalization ("https://x.test".toList) [] exArticleAbsUrl).1
      (by decide) (by decide)).trans (by decide)

/-- C6: a query that is empty or whitespace-only, is the wildcard `*`, or
contains `all`, `everything`, or `list` in any casing is classified GetAll,
with the fixed browse limit 100; this arm precedes the recency arm, so any
embedded number is discarded. -/
theorem c6_getall_classification (q : Str)
    (h : trimStr q = [] ∨ trimStr q = ['*'] ∨
      containsSub (lowerStr q) ("all".toList) = true ∨
      containsSub (lowerStr q) ("everything".toList) = true ∨
      containsSub (lowerStr q) ("list".toList) = true) :
    classifyQuery q = Intent.getAll 100 := by
  have hg : isGetAllQuery q = true := by
    unfold isGetAllQuery
    rcases h with h | h | h | h | h <;> simp_all
  simp [classifyQuery, hg]

/-- C6 witness: the query `ALL 5` resolves GetAll with limit 100, its
casing ignored and its number discarded. -/
theorem c6_getall_classification_witness :
    classifyQuery ("ALL 5".toList) = Intent.getAll 100 :=
  c6_getall_classification ("ALL 5".toList)
    (Or.inr (Or.inr (Or.inl (by decide))))

/-- C7: a query not classified GetAll that contains a recency keyword is
classified GetLatest, carrying the first embedded decimal number as its
limit when one exists and the default 10 otherwise. -/
theorem c7_latest_classification (q : Str)
    (hga : isGetAllQuery q = false)
    (h : containsSub (lowerStr q) ("latest".toList) = true ∨
      containsSub (lowerStr q) ("recent".toList) = true ∨
      containsSub (lowerStr q) ("newest".toList) = true ∨
      containsSub (lowerStr q) ("last".toList) = true ∨
      containsSub (lowerStr q) ("son".toList) = true ∨
      containsSub (lowerStr q) ("yeni".toList) = true) :
    (∀ n, firstNumberMatch q = some n → classifyQuery q = Intent.getLatest n) ∧
    (firstNumberMatch q = none → classifyQuery q = Intent.getLatest 10) := by
  have hl : isLatestQuery q = true := by
    unfold isLatestQuery
    rcases h with h | h | h | h | h | h <;> simp_all
  constructor
  · intro n hn; simp [classifyQuery, hga, hl, hn]
  · intro hn; simp [classifyQuery, hga, hl, hn]

/-- C7 witness: `last 5` carries limit 5, `newest` defaults to 10. -/
theorem c7_latest_classification_witness :
    classifyQuery ("last 5".toList) = Intent.getLatest 5 ∧
    classifyQuery ("newest".toList) = Intent.getLatest 10 := by
  constructor
  · exact (c7_latest_classification ("last 5".toList) (by decide)
      (Or.inr (Or.inr (Or.inr (Or.inl (by decide)))))).1 5 (by decide)
  · exact (c7_latest_classification ("newest".toList) (by decide)
      (Or.inr (Or.inr (Or.inl (by decide))))).2 (by decide)

/-- The internal failures the search claim enumerates: transport error,
non-success status, upstream error field, or a success envelope whose inner
text is not decodable JSON. -/
def wireIsFailure (w : Wire) : Bool :=
  match w with
  | Wire.netDown => true
  | Wire.httpErr _ _ => true
  | Wire.ok b =>
    b.error.isSome ||
      (match b.content with
        | some (InnerText.undecodable _) => true
        | _ => false)

/-- C8: the search tool never raises: every invocation produces a successful
response, and on each of the enumerated internal failures that response is
the empty result set. -/
theorem c8_search_never_raises (base rnd q : Str) (w : Wire) :
    (∃ r, searchTool base rnd q w = Except.ok r) ∧
    (wireIsFailure w = true →
      searchTool base rnd q w = Except.ok (SearchResponse.results [])) := by
  constructor
  · unfold searchTool
    cases hc : callStrapiAPI w with
    | error e => exact ⟨SearchResponse.results [], rfl⟩
    | ok v =>
      by_cases ha : (articlesOf v).isEmpty
      · exact ⟨SearchResponse.results [], by simp [ha]⟩
      · exact ⟨SearchResponse.results (transformSearchResults base rnd (articlesOf v)),
          by simp [ha]⟩
  · intro hf
    cases w with
    | netDown => rfl
    | httpErr s m => rfl
    | ok b =>
      cases hbe : b.error with
      | some m => simp [searchTool, callStrapiAPI, hbe]
      | none =>
        cases hbc : b.content with
        | none => simp [wireIsFailure, hbe, hbc] at hf
        | some it =>
          cases it with
          | undecodable raw => simp [searchTool, callStrapiAPI, hbe, hbc, articlesOf]
          | decodable p => simp [wireIsFailure, hbe, hbc] at hf

/-- C8 witness: a transport failure yields the successful empty response. -/
theorem c8_search_never_raises_witness :
    searchTool [] [] ("security".toList) Wire.netDown =
      Except.ok (SearchResponse.results []) :=
  (c8_search_never_raises [] [] ("security".toList) Wire.netDown).2 rfl

/-- C9: the fetch tool absorbs no failure: every raised backend failure is
propagated as a backend tool error, a missing article record is propagated
as the not-found error, and a successful result can arise only from an
actually decoded article record, which it transforms. -/
theorem c9_fetch_propagates (base : Str) (w : Wire) :
    (∀ e, callStrapiAPI w = Except.error e →
      fetchTool base w = Except.error (ToolError.backend e)) ∧
    (∀ v, callStrapiAPI w = Except.ok v → articleOf v = none →
      fetchTool base w = Except.error ToolError.notFound) ∧
    (∀ d, fetchTool base w = Except.ok d →
      ∃ v a, callStrapiAPI w = Except.ok v ∧ articleOf v = some a ∧
        d = fetchDocOf base a) := by
  refine ⟨fun e he => ?_, fun v hv hn => ?_, fun d hd => ?_⟩
  · simp [fetchTool, he]
  · simp [fetchTool, hv, hn]
  · cases hc : callStrapiAPI w with
    | error e =>
      have hz : fetchTool base w = Except.error (ToolError.backend e) := by
        simp [fetchTool, hc]
      rw [hz] at hd; simp at hd
    | ok v =>
      cases ha : articleOf v with
      | none =>
        have hz : fetchTool base w = Except.error ToolError.notFound := by
          simp [fetchTool, hc, ha]
        rw [hz] at hd; simp at hd
      | some a =>
        have hz : fetchTool base w = Except.ok (fetchDocOf base a) := by
          simp [fetchTool, hc, ha]
        rw [hz] at hd
        simp only [Except.ok.injEq] at hd
        exact ⟨v, a, rfl, ha, hd.symm⟩

/-- C9 witness: an upstream error field propagates as a backend error, and a
well-formed envelope without an article record propagates as not-found. -/
theorem c9_fetch_propagates_witness :
    fetchTool [] (Wire.ok { error := some ("boom".toList) }) =
      Except.error (ToolError.backend (ApiError.api ("boom".toList))) ∧
    fetchTool [] (Wire.ok { content := some (InnerText.decodable {}) }) =
      Except.error ToolError.notFound := by
  constructor
  · exact (c9_fetch_propagates [] (Wire.ok { error := some ("boom".toList) })).1
      (ApiError.api ("boom".toList)) rfl
  · exact (c9_fetch_propagates [] (Wire.ok { content := some (InnerText.decodable {}) })).2.1
      (ApiValue.payload {}) rfl rfl

/-- A digit character is not parse-skippable whitespace. -/
theorem isDigitCh_not_ws {c : Char} (h : isDigitCh c = true) : isWsCh c = false := by
  unfold isDigitCh at h
  unfold isWsCh
  rw [decide_eq_true_eq] at h
  rw [decide_eq_false_iff_not]
  omega

/-- A digit character differs from any character outside the digit range. -/
theorem isDigitCh_ne_of_val {c : Char} (h : isDigitCh c = true) {d : Char}
    (hv : d.toNat < 48 ∨ 57 < d.toNat) : c ≠ d := by
  intro he
  subst he
  unfold isDigitCh at h
  rw [decide_eq_true_eq] at h
  omega

/-- `parseInt` on a non-empty pure decimal-digit string yields exactly its
decimal value: no whitespace is skipped, no sign is read, and the
hexadecimal escape cannot trigger since the second character is a digit. -/
theorem parseIntJS_all_digits (s : Str) (hne : s ≠ []) (hall : s.all isDigitCh = true) :
    parseIntJS s = some (Int.ofNat (digitsVal 10 s)) := by
  cases s with
  | nil => exact absurd rfl hne
  | cons c r =>
    rw [List.all_cons, Bool.and_eq_true] at hall
    obtain ⟨hc, hr⟩ := hall
    have hws : isWsCh c = false := isDigitCh_not_ws hc
    have hdW : (c :: r).dropWhile isWsCh = c :: r := by
      rw [List.dropWhile_cons, hws]
      simp
    have hminus : c ≠ '-' := isDigitCh_ne_of_val hc (Or.inl (by decide))
    have hplus : c ≠ '+' := isDigitCh_ne_of_val hc (Or.inl (by decide))
    have hsign : parseSign (c :: r) = (false, c :: r) := by
      simp [parseSign, hminus, hplus]
    have hradix : parseRadix (c :: r) = (10, c :: r) := by
      cases r with
      | nil => simp [parseRadix]
      | cons d r2 =>
        rw [List.all_cons, Bool.and_eq_true] at hr
        have hx : d ≠ 'x' := isDigitCh_ne_of_val hr.1 (Or.inr (by decide))
        have hX : d ≠ 'X' := isDigitCh_ne_of_val hr.1 (Or.inr (by decide))
        simp [parseRadix, hx, hX]
    have htw : (c :: r).takeWhile isDigitCh = c :: r := by
      refine List.takeWhile_eq_self_iff.mpr ?_
      intro x hx
      rcases List.mem_cons.mp hx with h | h
      · subst h; exact hc
      · exact List.all_eq_true.mp hr x h
    simp only [parseIntJS, hdW, hsign, hradix]
    norm_num
    simp [htw, hc]

/-- The claim's gloss of the conversion, in the claim's words: the value of
the longest leading run of decimal digits of the raw id, NaN when that run
is empty. -/
def claimedUpstreamInt (s : Str) : Option Int :=
  let ds := s.takeWhile isDigitCh
  if ds.isEmpty then none else some (Int.ofNat (digitsVal 10 ds))

/-- C10: the leading-decimal-digit-prefix gloss of the conversion is refuted:
the id `-5` has no leading digit, so the gloss sends NaN, but the handler
sends -5; and on the id `0x10` the gloss reads the prefix `0` while the
handler sends 16, `parseInt` having switched to hexadecimal. -/
theorem c10_parse_gloss_counterexample :
    (fetchUpstreamId ("-5".toList) = some (-5) ∧
      claimedUpstreamInt ("-5".toList) = none) ∧
    (fetchUpstreamId ("0x10".toList) = some 16 ∧
      claimedUpstreamInt ("0x10".toList) = some 0) := by
  decide

/-- C10 (amended): the integer sent to the upstream get-article-by-id
operation is ECMAScript parseInt of the raw id: leading whitespace and one
optional sign are consumed and a 0x or 0X marker switches to hexadecimal
before the longest digit run is taken, so an id that is a digit run
followed by trailing junk issues the same upstream request as the bare run
(fetch of `7abc` equals fetch of `7`), a wholly digit-free id such as `abc`
sends NaN upstream rather than being rejected at the tool boundary, and a
non-empty pure-digit id sends exactly its decimal value. -/
theorem c10_upstream_id_conversion :
    fetchUpstreamId ("7abc".toList) = fetchUpstreamId ("7".toList) ∧
    fetchUpstreamId ("abc".toList) = none ∧
    fetchUpstreamId (" 7".toList) = some 7 ∧
    fetchUpstreamId ("-5".toList) = some (-5) ∧
    (∀ s : Str, s ≠ [] → s.all isDigitCh = true →
      fetchUpstreamId s = some (Int.ofNat (digitsVal 10 s))) := by
  refine ⟨by decide, by decide, by decide, by decide, fun s hne hall => ?_⟩
  exact parseIntJS_all_digits s hne hall

/-- C10 witness: the digit-run law of the amended claim at the id `42`. -/
theorem c10_upstream_id_conversion_witness :
    fetchUpstreamId ("42".toList) = some (Int.ofNat (digitsVal 10 ("42".toList))) :=
  c10_upstream_id_conversion.2.2.2.2 ("42".toList) (by decide) (by decide)
